import Mathlib

/-!
Shallow embedding of `bestbuybot.py` (class `BestBuyMonitor`): the scheduler
(`is_business_hours`, `is_intensive_monitoring_window`, `get_check_interval`),
the status classifier (`get_button_status`), the notification policy
(`should_notify`) together with its one-field-deep mutable state, and the
control flow of the main loop (`monitor_stock`).  Timestamps are modelled at
second granularity as a Python weekday (Monday = 0 … Sunday = 6) plus a
time-of-day triple, compared lexicographically exactly as Python `datetime.time`
comparison does.
-/

namespace BestBuy

/-- The five status strings produced by `get_button_status`. -/
inductive Status where
  | AVAILABLE
  | COMING_SOON
  | SOLD_OUT
  | UNKNOWN
  | ERROR
deriving DecidableEq, Repr

/-- A Python `datetime.time` value at second granularity. -/
structure PyTime where
  hour : Nat
  minute : Nat
  second : Nat
deriving DecidableEq, Repr

/-- Python `time` comparison `a <= b`: lexicographic on (hour, minute, second). -/
def PyTime.le (a b : PyTime) : Bool :=
  decide (a.hour < b.hour ∨
    (a.hour = b.hour ∧ (a.minute < b.minute ∨
      (a.minute = b.minute ∧ a.second ≤ b.second))))

/-- Python `time` comparison `a < b`: lexicographic on (hour, minute, second). -/
def PyTime.lt (a b : PyTime) : Bool :=
  decide (a.hour < b.hour ∨
    (a.hour = b.hour ∧ (a.minute < b.minute ∨
      (a.minute = b.minute ∧ a.second < b.second))))

/-- The part of `datetime.now(self.pst_timezone)` the monitor reads: the
Python weekday (`Monday = 0 … Sunday = 6`) and the time of day. -/
structure Timestamp where
  weekday : Nat
  timeOfDay : PyTime
deriving DecidableEq, Repr

/-- `self.intensive_check_interval = 60` (seconds). -/
def intensive_check_interval : Nat := 60

/-- `self.tuesday_check_interval = 3600` (seconds). -/
def tuesday_check_interval : Nat := 3600

/-- `self.default_check_interval = 10800` (seconds). -/
def default_check_interval : Nat := 10800

/-- `is_business_hours`: `time(8,0) <= current_time <= time(18,0)`. -/
def is_business_hours (now : Timestamp) : Bool :=
  PyTime.le ⟨8, 0, 0⟩ now.timeOfDay && PyTime.le now.timeOfDay ⟨18, 0, 0⟩

/-- `is_intensive_monitoring_window`: weekday in `[2, 3]` (Wed/Thu) and
`time(8,0) <= current_time <= time(10,0)`. -/
def is_intensive_monitoring_window (now : Timestamp) : Bool :=
  (now.weekday == 2 || now.weekday == 3) &&
    (PyTime.le ⟨8, 0, 0⟩ now.timeOfDay && PyTime.le now.timeOfDay ⟨10, 0, 0⟩)

/-- `get_check_interval`: not business hours → default; intensive window →
intensive; Tuesday (weekday 1) → hourly; otherwise default. -/
def get_check_interval (now : Timestamp) : Nat :=
  if !is_business_hours now then default_check_interval
  else if is_intensive_monitoring_window now then intensive_check_interval
  else if now.weekday == 1 then tuesday_check_interval
  else default_check_interval

/-- Python `str.strip()` on a character list: drop whitespace from both ends. -/
def stripList (l : List Char) : List Char :=
  ((l.dropWhile Char.isWhitespace).reverse.dropWhile Char.isWhitespace).reverse

/-- Python `str.strip()`. -/
def pyStrip (s : String) : String :=
  ⟨stripList s.data⟩

/-- Python `str.upper()`. -/
def pyUpper (s : String) : String :=
  ⟨s.data.map Char.toUpper⟩

/-- Python substring test `pat in l` on character lists. -/
def hasSubstrList (pat : List Char) : List Char → Bool
  | [] => pat.isPrefixOf ([] : List Char)
  | c :: cs => pat.isPrefixOf (c :: cs) || hasSubstrList pat cs

/-- `get_button_status`: `none` models the element-lookup timeout or any other
exception (both `except` arms return `"ERROR"`); on found text the code runs
`button.text.strip().upper()` and matches exactly `"COMING SOON"`, exactly
`"SOLD OUT"`, then substring `"ADD TO CART"`, else `"UNKNOWN"`. -/
def get_button_status (button_text : Option String) : Status :=
  match button_text with
  | none => .ERROR
  | some raw =>
    let t := pyUpper (pyStrip raw)
    if t = "COMING SOON" then .COMING_SOON
    else if t = "SOLD OUT" then .SOLD_OUT
    else if hasSubstrList "ADD TO CART".data t.data then .AVAILABLE
    else .UNKNOWN

/-- The mutable fields of `BestBuyMonitor` the policy and loop touch:
`self.last_status` and `self.check_count`. -/
structure MonitorState where
  last_status : Option Status
  check_count : Nat
deriving DecidableEq, Repr

/-- State at `__init__`: `last_status = None`, `check_count = 0`. -/
def initialState : MonitorState :=
  { last_status := none, check_count := 0 }

/-- `should_notify(current_status)`: reads the clock and `self.last_status`,
returns the decision and the updated state (`self.last_status := current_status`
on every path). -/
def should_notify (st : MonitorState) (now : Timestamp) (current_status : Status) :
    Bool × MonitorState :=
  match st.last_status with
  | none => (false, { st with last_status := some current_status })
  | some last =>
    let should_send : Bool :=
      if current_status = .AVAILABLE then true
      else if now.weekday == 1 && (last == .SOLD_OUT && current_status == .COMING_SOON) then
        true
      else if is_intensive_monitoring_window now && last != current_status then true
      else if last != current_status &&
          (current_status == .COMING_SOON || current_status == .SOLD_OUT) then true
      else false
    (should_send, { st with last_status := some current_status })

/-- One poll of the loop body on found texts: classify, then evaluate the
notification policy, threading the monitor state. -/
def runSequence (now : Timestamp) (st : MonitorState) : List String → List Bool
  | [] => []
  | s :: rest =>
    let r := should_notify st now (get_button_status (some s))
    r.1 :: runSequence now r.2 rest

/-- The spec's wording of "case-insensitively equal": the two texts agree
after case folding. -/
def specCiEq (a b : String) : Bool :=
  decide (pyUpper a = pyUpper b)

/-- The spec's wording of "case-insensitively contains": the folded pattern
occurs as a substring of the folded text. -/
def specCiContains (a pat : String) : Bool :=
  hasSubstrList (pyUpper pat).data (pyUpper a).data

/-- The spec's classifier decision list, applied (per the amended claim) to the
whitespace-trimmed text: absent → ERROR; trimmed text case-insensitively equal
to "coming soon" → COMING_SOON; equal to "sold out" → SOLD_OUT; containing
"add to cart" → AVAILABLE; anything else → UNKNOWN, first rule winning. -/
def spec_classify (button_text : Option String) : Status :=
  match button_text with
  | none => .ERROR
  | some raw =>
    let t := pyStrip raw
    if specCiEq t "coming soon" then .COMING_SOON
    else if specCiEq t "sold out" then .SOLD_OUT
    else if specCiContains t "add to cart" then .AVAILABLE
    else .UNKNOWN

/-- Outcome of one execution of the `try` body inside `while True` in
`monitor_stock`: the tick ran to its end (having slept the jittered interval),
an `Exception` escaped the body, or a `KeyboardInterrupt` was raised (which
`except Exception` does not catch). -/
inductive BodyResult where
  | completed (slept : Nat)
  | raisedException
  | interrupted
deriving DecidableEq, Repr

/-- What the loop does after one iteration: go around again (after the recorded
sleep) or exit the loop. -/
inductive LoopControl where
  | continueAfterSleep (secs : Nat)
  | exitLoop
deriving DecidableEq, Repr

/-- Control flow of one `while True` iteration of `monitor_stock`: a completed
body continues; an `Exception` is caught by the handler, which sleeps
`intensive_check_interval` and continues; a `KeyboardInterrupt` propagates out
of the loop. -/
def handleTick : BodyResult → LoopControl
  | .completed slept => .continueAfterSleep slept
  | .raisedException => .continueAfterSleep intensive_check_interval
  | .interrupted => .exitLoop

/-- Run `monitor_stock` over a finite trace of tick outcomes: returns the
sequence of sleeps performed and whether the loop was exited. -/
def runLoop : List BodyResult → List Nat × Bool
  | [] => ([], false)
  | r :: rs =>
    match handleTick r with
    | .exitLoop => ([], true)
    | .continueAfterSleep n =>
      let rest := runLoop rs
      (n :: rest.1, rest.2)

/-- The sleep each non-interrupting tick outcome leads to. -/
def tickSleep : BodyResult → Nat
  | .completed slept => slept
  | .raisedException => intensive_check_interval
  | .interrupted => 0

/-- `stripList` is right-strip (`List.rdropWhile`) after left-strip. -/
theorem stripList_eq_rdropWhile (l : List Char) :
    stripList l = List.rdropWhile Char.isWhitespace (l.dropWhile Char.isWhitespace) :=
  rfl

/-- Stripping an already stripped character list changes nothing. -/
theorem stripList_idem (l : List Char) : stripList (stripList l) = stripList l := by
  rw [stripList_eq_rdropWhile, stripList_eq_rdropWhile]
  have hB : (List.rdropWhile Char.isWhitespace
      (l.dropWhile Char.isWhitespace)).dropWhile Char.isWhitespace =
      List.rdropWhile Char.isWhitespace (l.dropWhile Char.isWhitespace) := by
    cases hBc : List.rdropWhile Char.isWhitespace (l.dropWhile Char.isWhitespace) with
    | nil => rfl
    | cons b bs =>
      have hpre := List.rdropWhile_prefix Char.isWhitespace (l.dropWhile Char.isWhitespace)
      rw [hBc] at hpre
      obtain ⟨t, ht⟩ := hpre
      have hA : (l.dropWhile Char.isWhitespace).dropWhile Char.isWhitespace =
          l.dropWhile Char.isWhitespace := List.dropWhile_idempotent _ _
      rw [← ht, List.cons_append, List.dropWhile_cons] at hA
      by_cases hwb : Char.isWhitespace b = true
      · rw [if_pos hwb] at hA
        have hlen := congrArg List.length hA
        have hle : ((bs ++ t).dropWhile Char.isWhitespace).length ≤ (bs ++ t).length :=
          (List.dropWhile_sublist _).length_le
        simp only [List.length_cons] at hlen
        omega
      · rw [List.dropWhile_cons, if_neg hwb]
  rw [hB, List.rdropWhile_idempotent]

/-- `pyStrip` is idempotent. -/
theorem pyStrip_idem (s : String) : pyStrip (pyStrip s) = pyStrip s := by
  show (⟨stripList (stripList s.data)⟩ : String) = ⟨stripList s.data⟩
  rw [stripList_idem]

/-- C1 counterexample: at Wednesday noon — outside the intensive window — the
stored SOLD_OUT to current COMING_SOON transition makes `should_notify` return
true, where the claim requires false. -/
theorem C1_counterexample :
    (⟨2, ⟨12, 0, 0⟩⟩ : Timestamp).weekday = 2 ∧
    is_intensive_monitoring_window ⟨2, ⟨12, 0, 0⟩⟩ = false ∧
    (should_notify ⟨some .SOLD_OUT, 5⟩ ⟨2, ⟨12, 0, 0⟩⟩ .COMING_SOON).1 = true := by
  decide

/-- C1 (amended): with stored previous status SOLD_OUT and current status
COMING_SOON, `should_notify` returns true at every timestamp — on Tuesday via
the Tuesday rule, and also on Wednesday outside the intensive window, where the
significant-change rule fires because the status changed to COMING_SOON. -/
theorem C1_sold_out_to_coming_soon (st : MonitorState) (now : Timestamp)
    (h : st.last_status = some .SOLD_OUT) :
    (should_notify st now .COMING_SOON).1 = true := by
  obtain ⟨ls, k⟩ := st
  have h' : ls = some .SOLD_OUT := h
  subst h'
  cases h1 : (now.weekday == 1) <;>
    cases h2 : is_intensive_monitoring_window now <;>
      (simp only [should_notify, h1, h2]; decide)

/-- C1 witness: Tuesday 09:00 instance of the amended theorem. -/
theorem C1_witness :
    (should_notify ⟨some .SOLD_OUT, 0⟩ ⟨1, ⟨9, 0, 0⟩⟩ .COMING_SOON).1 = true :=
  C1_sold_out_to_coming_soon ⟨some .SOLD_OUT, 0⟩ ⟨1, ⟨9, 0, 0⟩⟩ rfl

/-- C2 counterexample: the first call with AVAILABLE stores it as baseline, and
the second call with AVAILABLE again returns true, where the claim requires
false. -/
theorem C2_counterexample :
    ((should_notify initialState ⟨4, ⟨12, 0, 0⟩⟩ .AVAILABLE).2.last_status =
      some .AVAILABLE) ∧
    (should_notify (should_notify initialState ⟨4, ⟨12, 0, 0⟩⟩ .AVAILABLE).2
      ⟨4, ⟨12, 0, 0⟩⟩ .AVAILABLE).1 = true := by
  decide

/-- C2 (amended): when the stored previous status already equals the current
status, `should_notify` returns false for every status other than AVAILABLE, at
every timestamp; for AVAILABLE the repeated call still returns true, by the
unconditional availability rule. -/
theorem C2_repeat_status (st : MonitorState) (now : Timestamp) (s : Status)
    (h : st.last_status = some s) :
    (s ≠ .AVAILABLE → (should_notify st now s).1 = false) ∧
    (s = .AVAILABLE → (should_notify st now s).1 = true) := by
  obtain ⟨ls, k⟩ := st
  have h' : ls = some s := h
  subst h'
  constructor
  · intro hne
    cases h1 : (now.weekday == 1) <;>
      cases h2 : is_intensive_monitoring_window now <;>
        cases s <;>
          first
          | exact absurd rfl hne
          | (simp only [should_notify, h1, h2]; decide)
  · intro hs
    subst hs
    rfl

/-- C2 witness: a repeated SOLD_OUT is silent and a repeated AVAILABLE still
notifies, at a concrete Friday-noon timestamp. -/
theorem C2_witness :
    (should_notify ⟨some .SOLD_OUT, 0⟩ ⟨4, ⟨12, 0, 0⟩⟩ .SOLD_OUT).1 = false ∧
    (should_notify ⟨some .AVAILABLE, 0⟩ ⟨4, ⟨12, 0, 0⟩⟩ .AVAILABLE).1 = true :=
  ⟨(C2_repeat_status ⟨some .SOLD_OUT, 0⟩ ⟨4, ⟨12, 0, 0⟩⟩ .SOLD_OUT rfl).1 (by decide),
   (C2_repeat_status ⟨some .AVAILABLE, 0⟩ ⟨4, ⟨12, 0, 0⟩⟩ .AVAILABLE rfl).2 rfl⟩

/-- C3 counterexample: the found text "  coming soon  " satisfies none of the
claim's rules — it is not case-insensitively equal to "coming soon" or to
"sold out", and does not case-insensitively contain "add to cart" — yet the
classifier returns COMING_SOON, not the UNKNOWN the claim requires, because
the code strips whitespace before matching. -/
theorem C3_counterexample :
    specCiEq "  coming soon  " "coming soon" = false ∧
    specCiEq "  coming soon  " "sold out" = false ∧
    specCiContains "  coming soon  " "add to cart" = false ∧
    get_button_status (some "  coming soon  ") = .COMING_SOON := by
  decide

/-- C3 (amended): the classifier agrees everywhere with the spec's decision
list applied to the whitespace-trimmed text: absent element or lookup failure →
ERROR; trimmed text case-insensitively equal to "coming soon" → COMING_SOON;
equal to "sold out" → SOLD_OUT; otherwise trimmed text case-insensitively
containing "add to cart" → AVAILABLE; any other found text → UNKNOWN — exact
matches tested before the substring match, first satisfied rule winning. -/
theorem C3_classifier_matches_spec (x : Option String) :
    get_button_status x = spec_classify x := by
  cases x with
  | none => rfl
  | some raw =>
    have h1 : pyUpper "coming soon" = "COMING SOON" := by decide
    have h2 : pyUpper "sold out" = "SOLD OUT" := by decide
    have h3 : pyUpper "add to cart" = "ADD TO CART" := by decide
    simp only [get_button_status, spec_classify, specCiEq, specCiContains, h1, h2, h3,
      decide_eq_true_eq]

/-- C4: the very first call to `should_notify` (stored previous status None)
returns false at every timestamp and stores the current status as the new
baseline; and with any non-None stored previous status, a current status of
AVAILABLE notifies unconditionally. -/
theorem C4_baseline_then_available (st : MonitorState) (now : Timestamp) :
    (∀ c : Status, st.last_status = none →
      should_notify st now c = (false, { st with last_status := some c })) ∧
    (∀ p : Status, st.last_status = some p →
      (should_notify st now .AVAILABLE).1 = true) := by
  obtain ⟨ls, k⟩ := st
  constructor
  · intro c h
    have h' : ls = none := h
    subst h'
    rfl
  · intro p h
    have h' : ls = some p := h
    subst h'
    rfl

/-- C4 witness: first observation of SOLD_OUT is silent and only stores the
baseline; afterwards AVAILABLE notifies. -/
theorem C4_witness :
    should_notify initialState ⟨1, ⟨9, 0, 0⟩⟩ .SOLD_OUT =
      (false, { initialState with last_status := some .SOLD_OUT }) ∧
    (should_notify ⟨some .SOLD_OUT, 3⟩ ⟨1, ⟨9, 0, 0⟩⟩ .AVAILABLE).1 = true :=
  ⟨(C4_baseline_then_available initialState ⟨1, ⟨9, 0, 0⟩⟩).1 .SOLD_OUT rfl,
   (C4_baseline_then_available ⟨some .SOLD_OUT, 3⟩ ⟨1, ⟨9, 0, 0⟩⟩).2 .SOLD_OUT rfl⟩

/-- C5: whenever the time of day is outside 08:00–18:00 — the bounds being
inclusive, so strictly before 08:00 or strictly after 18:00 — the check
interval is the 3-hour value, 10800 seconds, whatever the weekday. -/
theorem C5_off_hours_interval (now : Timestamp)
    (h : PyTime.lt now.timeOfDay ⟨8, 0, 0⟩ = true ∨
      PyTime.lt ⟨18, 0, 0⟩ now.timeOfDay = true) :
    get_check_interval now = 10800 := by
  have hb : is_business_hours now = false := by
    obtain ⟨wd, ⟨hh, mm, ss⟩⟩ := now
    simp only [PyTime.lt, decide_eq_true_eq] at h
    simp only [is_business_hours, PyTime.le, Bool.and_eq_false_iff,
      decide_eq_false_iff_not]
    omega
  simp [get_check_interval, hb, default_check_interval]

/-- C5 witness: Tuesday 19:30 is outside business hours, so the interval is
10800 seconds despite the Tuesday rule. -/
theorem C5_witness : get_check_interval ⟨1, ⟨19, 30, 0⟩⟩ = 10800 :=
  C5_off_hours_interval ⟨1, ⟨19, 30, 0⟩⟩ (Or.inr (by decide))

/-- C6: on Wednesday (weekday 2) or Thursday (weekday 3) the intensive window
holds at exactly 08:00, 09:00 and 10:00 — both boundaries inclusive — and
fails at 07:59 and at 10:01. -/
theorem C6_intensive_window_bounds (wd : Nat) (h : wd = 2 ∨ wd = 3) :
    is_intensive_monitoring_window ⟨wd, ⟨8, 0, 0⟩⟩ = true ∧
    is_intensive_monitoring_window ⟨wd, ⟨9, 0, 0⟩⟩ = true ∧
    is_intensive_monitoring_window ⟨wd, ⟨10, 0, 0⟩⟩ = true ∧
    is_intensive_monitoring_window ⟨wd, ⟨7, 59, 0⟩⟩ = false ∧
    is_intensive_monitoring_window ⟨wd, ⟨10, 1, 0⟩⟩ = false := by
  rcases h with h | h <;> subst h <;> decide

/-- C6 witness: the Wednesday instance of the window-bounds theorem. -/
theorem C6_witness :
    is_intensive_monitoring_window ⟨2, ⟨8, 0, 0⟩⟩ = true ∧
    is_intensive_monitoring_window ⟨2, ⟨9, 0, 0⟩⟩ = true ∧
    is_intensive_monitoring_window ⟨2, ⟨10, 0, 0⟩⟩ = true ∧
    is_intensive_monitoring_window ⟨2, ⟨7, 59, 0⟩⟩ = false ∧
    is_intensive_monitoring_window ⟨2, ⟨10, 1, 0⟩⟩ = false :=
  C6_intensive_window_bounds 2 (Or.inl rfl)

/-- C7: from the initial state, classifying and evaluating the raw texts
"Sold Out", "Coming Soon", "Coming Soon", "Add to Cart" at any Tuesday
timestamp produces the decisions false, true, false, true. -/
theorem C7_tuesday_sequence (tod : PyTime) :
    runSequence ⟨1, tod⟩ initialState
      ["Sold Out", "Coming Soon", "Coming Soon", "Add to Cart"] =
      [false, true, false, true] :=
  rfl

/-- C8: for every prior state — a None baseline included — every current
status and every timestamp, `should_notify` overwrites the stored previous
status with the current status whatever boolean it returns, and leaves
`check_count` (the only other field) unchanged. -/
theorem C8_state_update (st : MonitorState) (now : Timestamp) (c : Status) :
    (should_notify st now c).2 =
      { last_status := some c, check_count := st.check_count } := by
  obtain ⟨ls, k⟩ := st
  cases ls <;> rfl

/-- C9: over any finite trace of tick outcomes containing no user interrupt,
the loop exits never and performs one sleep per tick — a tick whose body
raised an `Exception` is caught and sleeps `intensive_check_interval` (60 s)
before the loop resumes — while a `KeyboardInterrupt` outcome exits the loop. -/
theorem C9_loop_resilience (rs : List BodyResult)
    (h : BodyResult.interrupted ∉ rs) :
    runLoop rs = (rs.map tickSleep, false) ∧
    handleTick .interrupted = .exitLoop := by
  refine ⟨?_, rfl⟩
  induction rs with
  | nil => rfl
  | cons r t ih =>
    have ht : BodyResult.interrupted ∉ t := fun hm => h (List.mem_cons_of_mem r hm)
    cases r with
    | completed n => simp [runLoop, handleTick, tickSleep, ih ht]
    | raisedException => simp [runLoop, handleTick, tickSleep, ih ht]
    | interrupted => exact absurd (List.mem_cons_self _ _) h

/-- C9 witness: a trace with one exception tick is fully processed, the
exception tick sleeping 60 seconds. -/
theorem C9_witness :
    runLoop [.completed 3600, .raisedException, .completed 10800] =
      ([3600, 60, 10800], false) :=
  (C9_loop_resilience [.completed 3600, .raisedException, .completed 10800]
    (by decide)).1

/-- C10: classification ignores leading and trailing whitespace — the code
strips the found text before matching — so "  sold out  " is SOLD_OUT,
" Add to Cart " is AVAILABLE, and classifying any found text equals
classifying its trimmed form. -/
theorem C10_strip_before_match (s : String) :
    get_button_status (some "  sold out  ") = .SOLD_OUT ∧
    get_button_status (some " Add to Cart ") = .AVAILABLE ∧
    get_button_status (some s) = get_button_status (some (pyStrip s)) := by
  refine ⟨by decide, by decide, ?_⟩
  simp only [get_button_status, pyStrip_idem]

/-- Sanity of the embedding: the spec's remaining classifier test vectors. -/
theorem classifier_test_vectors :
    get_button_status (some "SOLD OUT") = .SOLD_OUT ∧
    get_button_status (some "Sold Out") = .SOLD_OUT ∧
    get_button_status (some "sold out") = .SOLD_OUT ∧
    get_button_status (some "Add to Cart") = .AVAILABLE ∧
    get_button_status (some "ADD TO CART NOW") = .AVAILABLE ∧
    get_button_status none = .ERROR ∧
    get_button_status (some "Pre-Order") = .UNKNOWN := by
  decide

end BestBuy
